import Mathlib

/-!
# guppy: configuration options and the decorating HTTP client

A shallow embedding of `options.go` and `guppy.go`.

Modelling conventions

* A Go `string` is a Lean `String`; only emptiness, equality and concatenation
  are used by the source.
* `time.Duration` is an `int64` count of nanoseconds; it is an `Int` here. The
  source performs no arithmetic on durations besides the constant products in
  `defaults`, so no wrap-around can occur.
* A Go pointer that may be `nil` is an `Option`; a Go result pair
  `(*T, error)` is a pair of two `Option`s, so that "both" and "neither" stay
  expressible.
* A Go `error` is a `GoError` value, `nil` is `none`.
* `Option` in the source is `func(c *Configuration) error`: it mutates the
  configuration it is handed and returns an error. Here it is a function from
  the configuration before to the configuration after paired with the returned
  error. The Lean name is `OptionFn` because `Option` is taken.
* Receivers and arguments that the source dereferences without a nil check
  (`c`, `c.client`, `r`, `r.Header` in `Do`) are non-nil by type.
-/

namespace Guppy

/-! ## Errors -/

/-- Go error values: `errors.New` values and `errors.Wrap` (github.com/pkg/errors) wrappers. -/
inductive GoError where
  | New (msg : String)
  | Wrap (cause : GoError) (msg : String)
  deriving DecidableEq, Repr

/-- The `errors.Wrap` of github.com/pkg/errors: nil stays nil, otherwise the error is wrapped with the message. -/
def errors.Wrap (err : Option GoError) (message : String) : Option GoError :=
  match err with
  | none => none
  | some e => some (GoError.Wrap e message)

/-- The `errors.Cause` of github.com/pkg/errors: the innermost wrapped error. -/
def errors.Cause : GoError → GoError
  | GoError.New m => GoError.New m
  | GoError.Wrap c _ => errors.Cause c

/-- The package variable `ErrCommandNameNotSpecified` (options.go, lines 12-14). -/
def ErrCommandNameNotSpecified : GoError :=
  GoError.New "must specify operationName and/or serviceName/upstreamServiceName"

/-! ## HTTP and tracing collaborators -/

/-- The type `time.Duration`, in nanoseconds. -/
abbrev Duration := Int

/-- The constant `time.Millisecond`. -/
def time.Millisecond : Duration := 1000000

/-- The constant `time.Minute`. -/
def time.Minute : Duration := 60000000000

/-- The constant `time.Second`. -/
def time.Second : Duration := 1000000000

/-- The type `http.Header`, a map from header name to its list of values; an absent key reads as the empty list. -/
abbrev Header := String → List String

/-- The empty header map. -/
def Header.empty : Header := fun _ => []

/-- The method `http.Header.Add` for a key already in canonical MIME form (the only
key the source passes is the literal `"User-Agent"`, which is canonical): the value
is appended to the values stored under the key. -/
def Header.Add (h : Header) (key value : String) : Header :=
  fun k => if k = key then h k ++ [value] else h k

/-- The method `http.Header.Set`: the values under the key are replaced by the single value. -/
def Header.Set (h : Header) (key value : String) : Header :=
  fun k => if k = key then [value] else h k

/-- An opentracing span context, as far as a carrier can observe it. -/
structure SpanContext where
  traceID : Nat
  spanID : Nat
  baggage : List (String × String)
  deriving DecidableEq, Repr

/-- An opentracing span; `Context` is the method `Span.Context()`. -/
structure Span where
  Context : SpanContext
  deriving DecidableEq, Repr

/-- A `context.Context`, as far as the source and the claims observe it: the active
span stored in it (if any) and its deadline (if any). -/
structure Context where
  span : Option Span
  deadline : Option Duration
  deriving DecidableEq, Repr

/-- The function `opentracing.SpanFromContext`: the span stored in the context, or nil. -/
def opentracing.SpanFromContext (ctx : Context) : Option Span := ctx.span

/-- An `opentracing.Tracer`, with the one method the source calls: `Inject` with the
`HTTPHeaders` format writes into the carrier (the header map) and returns an error. -/
structure Tracer where
  Inject : SpanContext → Header → Header × Option GoError

/-- An `http.Request`: method, URL, header map and the context bound to the request. -/
structure Request where
  Method : String
  URL : String
  Header : Header
  ctx : Context

/-- An `http.Response`. -/
structure Response where
  StatusCode : Nat
  Body : String
  deriving DecidableEq, Repr

/-- An `http.Client`: the transport collaborator. `Do` sends the request and returns a
response and an error; it does not write to the request it is handed. -/
structure HTTPClient where
  Do : Request → Option Response × Option GoError

/-! ## options.go -/

/-- The struct `Configuration` (options.go, lines 18-39). -/
structure Configuration where
  serviceName : String
  upstreamServiceName : String
  operationName : String
  userAgent : String
  idleConnTimeout : Duration
  tlsHandshakeTimeout : Duration
  responseHeaderTimeout : Duration
  httpTimeout : Duration
  circuitTimeout : Duration
  circuitOpenTimeout : Duration
  httpClient : Option HTTPClient
  tracer : Option Tracer

/-- The type `Option` of the source, `func(c *Configuration) error`: the configuration
after the call and the returned error. -/
abbrev OptionFn := Configuration → Configuration × Option GoError

/-- The option constructor `ServiceName` (options.go, lines 41-46). -/
def ServiceName (serviceName : String) : OptionFn :=
  fun c => ({ c with serviceName := serviceName }, none)

/-- The option constructor `UpstreamServiceName` (options.go, lines 48-53). -/
def UpstreamServiceName (upstreamServiceName : String) : OptionFn :=
  fun c => ({ c with upstreamServiceName := upstreamServiceName }, none)

/-- The option constructor `OperationName` (options.go, lines 55-60). -/
def OperationName (commandName : String) : OptionFn :=
  fun c => ({ c with operationName := commandName }, none)

/-- The option constructor `UserAgent` (options.go, lines 62-67). -/
def UserAgent (userAgent : String) : OptionFn :=
  fun c => ({ c with userAgent := userAgent }, none)

/-- The option constructor `IdleConnTimeout` (options.go, lines 69-74). -/
def IdleConnTimeout (idleConnTimeout : Duration) : OptionFn :=
  fun c => ({ c with idleConnTimeout := idleConnTimeout }, none)

/-- The option constructor `TlsHandshakeTimeout` (options.go, lines 76-81). -/
def TlsHandshakeTimeout (tlsHandshakeTimeout : Duration) : OptionFn :=
  fun c => ({ c with tlsHandshakeTimeout := tlsHandshakeTimeout }, none)

/-- The option constructor `ResponseHeaderTimeout` (options.go, lines 83-88). -/
def ResponseHeaderTimeout (responseHeaderTimeout : Duration) : OptionFn :=
  fun c => ({ c with responseHeaderTimeout := responseHeaderTimeout }, none)

/-- The option constructor `HttpTimeout` (options.go, lines 90-95). -/
def HttpTimeout (httpTimeout : Duration) : OptionFn :=
  fun c => ({ c with httpTimeout := httpTimeout }, none)

/-- The option constructor `CircuitTimeout` (options.go, lines 97-102). -/
def CircuitTimeout (circuitTimeout : Duration) : OptionFn :=
  fun c => ({ c with circuitTimeout := circuitTimeout }, none)

/-- The option constructor `CircuitOpenTimeout` (options.go, lines 104-109). -/
def CircuitOpenTimeout (circuitOpenTimeout : Duration) : OptionFn :=
  fun c => ({ c with circuitOpenTimeout := circuitOpenTimeout }, none)

/-- The option constructor `HTTPClient` (options.go, lines 111-116); named `HTTPClientOption`
here because the transport type already carries the name. -/
def HTTPClientOption (client : Option HTTPClient) : OptionFn :=
  fun c => ({ c with httpClient := client }, none)

/-- The option constructor `Tracer` (options.go, lines 118-123); named `TracerOption`
here because the tracer type already carries the name. -/
def TracerOption (tracer : Option Tracer) : OptionFn :=
  fun c => ({ c with tracer := tracer }, none)

/-- The function `defaults` (options.go, lines 125-131): every field is the Go zero value
except the three timeouts that are given. -/
def defaults : Configuration :=
  { serviceName := ""
    upstreamServiceName := ""
    operationName := ""
    userAgent := ""
    idleConnTimeout := 0
    tlsHandshakeTimeout := 0
    responseHeaderTimeout := 0
    httpTimeout := 500 * time.Millisecond
    circuitTimeout := 500 * time.Millisecond
    circuitOpenTimeout := time.Minute
    httpClient := none
    tracer := none }

/-- The loop of `NewConfiguration` (options.go, lines 136-138): every option is called
on the working configuration in order and its returned error is dropped. -/
def applyOptions (opts : List OptionFn) (o : Configuration) : Configuration :=
  opts.foldl (fun c option => (option c).1) o

/-- The call `fmt.Sprintf("%v/%v", a, b)` on two strings. -/
def sprintfSlash (a b : String) : String := a ++ "/" ++ b

/-- The function `NewConfiguration` (options.go, lines 133-151). -/
def NewConfiguration (opts : List OptionFn) : Option Configuration × Option GoError :=
  let o := applyOptions opts defaults
  if o.operationName = "" then
    if o.serviceName = "" ∨ o.upstreamServiceName = "" then
      (none, some ErrCommandNameNotSpecified)
    else
      let o := { o with operationName := sprintfSlash o.serviceName o.upstreamServiceName }
      if o.serviceName = "" ∨ o.upstreamServiceName = "" then
        (none, some ErrCommandNameNotSpecified)
      else
        (some o, none)
  else
    if o.serviceName = "" ∨ o.upstreamServiceName = "" then
      (none, some ErrCommandNameNotSpecified)
    else
      (some o, none)

/-! ## guppy.go -/

/-- The struct `Client` (guppy.go, lines 14-25). -/
structure Client where
  name : String
  userAgent : String
  client : HTTPClient
  tracer : Option Tracer

/-- The method `Configuration.Build` (options.go, lines 153-155): `return nil, nil`. -/
def Configuration.Build (_o : Configuration) : Option Client × Option GoError :=
  (none, none)

/-- What a call of `Client.Do` leaves behind: the returned response and error, the
request as it stands after the call, and the requests handed to the transport, in order. -/
structure DoResult where
  resp : Option Response
  err : Option GoError
  request : Request
  calls : List Request

/-- Lines 43-45 of guppy.go: add the user agent, then hand the request to the transport. -/
def Client.send (c : Client) (r : Request) : DoResult :=
  let r := { r with Header := Header.Add r.Header "User-Agent" c.userAgent }
  let out := c.client.Do r
  { resp := out.1, err := out.2, request := r, calls := [r] }

/-- The method `Client.Do` (guppy.go, lines 32-46). The first argument is the tracer
that `opentracing.GlobalTracer()` returns at the time of the call. -/
def Client.Do (global : Tracer) (c : Client) (ctx : Context) (_operationName : String)
    (r : Request) : DoResult :=
  match opentracing.SpanFromContext ctx with
  | some span =>
    let inj := global.Inject span.Context r.Header
    let r := { r with Header := inj.1 }
    match inj.2 with
    | some err =>
      { resp := none
        err := errors.Wrap (some err) "unable to inject opentracing headers"
        request := r
        calls := [] }
    | none => c.send r
  | none => c.send r

/-- The header map of the request after lines 33-41 of guppy.go: what the global
tracer's `Inject` left in it when the context carries a span, the map as it was otherwise. -/
def injectedHeader (global : Tracer) (ctx : Context) (r : Request) : Header :=
  match opentracing.SpanFromContext ctx with
  | some span => (global.Inject span.Context r.Header).1
  | none => r.Header

/-- The decorated request: the request after line 43 of guppy.go, with the headers that
lines 33-41 left and the user agent of the Client added under `User-Agent`. -/
def Client.decorated (c : Client) (global : Tracer) (ctx : Context) (r : Request) : Request :=
  { r with Header := Header.Add (injectedHeader global ctx r) "User-Agent" c.userAgent }

/-! ## Example values -/

/-- A tracer whose `Inject` fails without writing anything. -/
def failingTracer : Tracer :=
  { Inject := fun _ h => (h, some (GoError.New "carrier encoding failed")) }

/-- A tracer whose `Inject` writes one trace header and succeeds. -/
def headerTracer : Tracer :=
  { Inject := fun _ h => (Header.Set h "Uber-Trace-Id" "1:2:0:1", none) }

/-- A Client whose transport answers every request with HTTP 500 and a nil error. -/
def status500Client : Client :=
  { name := "orders/inventory"
    userAgent := "guppy/1"
    client := { Do := fun _ => (some { StatusCode := 500, Body := "internal error" }, none) }
    tracer := none }

/-- A context that carries an active span and no deadline. -/
def spanContext : Context :=
  { span := some { Context := { traceID := 1, spanID := 2, baggage := [] } }
    deadline := none }

/-- A context that carries no span and no deadline. -/
def plainContext : Context :=
  { span := none, deadline := none }

/-- A request with one header already set. -/
def getRequest : Request :=
  { Method := "GET"
    URL := "http://inventory/items"
    Header := Header.Set Header.empty "Accept" "application/json"
    ctx := plainContext }

/-! ## Repeated calls -/

/-- A caller that calls `Do` on one Client once per entry of the list, in order, and
collects what each call leaves behind. `Do` writes to no field of the Client
(guppy.go, lines 32-46), so every call runs on the same Client value. -/
def Client.DoAll (c : Client) (global : Tracer) :
    List (Context × String × Request) → List DoResult
  | [] => []
  | (ctx, operationName, r) :: rest =>
    c.Do global ctx operationName r :: c.DoAll global rest

/-- A Client whose transport fails on every request. -/
def failingClient : Client :=
  { name := "orders/inventory"
    userAgent := "guppy/1"
    client := { Do := fun _ => (none, some (GoError.New "connection refused")) }
    tracer := none }

/-- A caller context without a span and with a deadline of two seconds. -/
def twoSecondContext : Context :=
  { span := none, deadline := some (2 * time.Second) }

/-! ## NewConfiguration as mutations followed by validation -/

/-- The mutation an option performs on the configuration, with its returned error left
out (follows the wording of the claim on discarded option errors). -/
def mutation (option : OptionFn) : Configuration → Configuration :=
  fun c => (option c).1

/-- Applying mutations in order, first to last (follows the wording of the claim on
discarded option errors). -/
def applyMutations : List (Configuration → Configuration) → Configuration → Configuration
  | [], c => c
  | m :: rest, c => applyMutations rest (m c)

/-- Validating a configuration: lines 140-150 of options.go read as a function of the
configuration the options left (follows the wording of the claim on discarded option
errors). -/
def validate (o : Configuration) : Option Configuration × Option GoError :=
  if o.serviceName = "" ∨ o.upstreamServiceName = "" then
    (none, some ErrCommandNameNotSpecified)
  else if o.operationName = "" then
    (some { o with operationName := sprintfSlash o.serviceName o.upstreamServiceName }, none)
  else
    (some o, none)

/-- The option with the same mutation and a nil error. -/
def silenced (option : OptionFn) : OptionFn :=
  fun c => ((option c).1, none)

/-- An option written by a caller: it sets the user agent and returns an error. -/
def failingOption : OptionFn :=
  fun c => ({ c with userAgent := "guppy/1" }, some (GoError.New "option rejected"))

/-! ## The twelve option constructors, field by field -/

/-- The twelve fields of `Configuration` (options.go, lines 18-39). -/
inductive Field where
  | serviceName
  | upstreamServiceName
  | operationName
  | userAgent
  | idleConnTimeout
  | tlsHandshakeTimeout
  | responseHeaderTimeout
  | httpTimeout
  | circuitTimeout
  | circuitOpenTimeout
  | httpClient
  | tracer
  deriving DecidableEq, Repr

/-- The option is the one that the constructor for the given field returns, for some
argument (options.go, lines 41-123). -/
inductive SetterOf : Field → OptionFn → Prop where
  | serviceName (a : String) : SetterOf Field.serviceName (ServiceName a)
  | upstreamServiceName (a : String) :
      SetterOf Field.upstreamServiceName (UpstreamServiceName a)
  | operationName (a : String) : SetterOf Field.operationName (OperationName a)
  | userAgent (a : String) : SetterOf Field.userAgent (UserAgent a)
  | idleConnTimeout (a : Duration) : SetterOf Field.idleConnTimeout (IdleConnTimeout a)
  | tlsHandshakeTimeout (a : Duration) :
      SetterOf Field.tlsHandshakeTimeout (TlsHandshakeTimeout a)
  | responseHeaderTimeout (a : Duration) :
      SetterOf Field.responseHeaderTimeout (ResponseHeaderTimeout a)
  | httpTimeout (a : Duration) : SetterOf Field.httpTimeout (HttpTimeout a)
  | circuitTimeout (a : Duration) : SetterOf Field.circuitTimeout (CircuitTimeout a)
  | circuitOpenTimeout (a : Duration) :
      SetterOf Field.circuitOpenTimeout (CircuitOpenTimeout a)
  | httpClient (a : Option HTTPClient) : SetterOf Field.httpClient (HTTPClientOption a)
  | tracer (a : Option Tracer) : SetterOf Field.tracer (TracerOption a)

/-- The second configuration holds in every field other than the given one what the
first configuration holds there. -/
def sameExcept (f : Field) (c d : Configuration) : Prop :=
  (f ≠ Field.serviceName → d.serviceName = c.serviceName) ∧
  (f ≠ Field.upstreamServiceName → d.upstreamServiceName = c.upstreamServiceName) ∧
  (f ≠ Field.operationName → d.operationName = c.operationName) ∧
  (f ≠ Field.userAgent → d.userAgent = c.userAgent) ∧
  (f ≠ Field.idleConnTimeout → d.idleConnTimeout = c.idleConnTimeout) ∧
  (f ≠ Field.tlsHandshakeTimeout → d.tlsHandshakeTimeout = c.tlsHandshakeTimeout) ∧
  (f ≠ Field.responseHeaderTimeout → d.responseHeaderTimeout = c.responseHeaderTimeout) ∧
  (f ≠ Field.httpTimeout → d.httpTimeout = c.httpTimeout) ∧
  (f ≠ Field.circuitTimeout → d.circuitTimeout = c.circuitTimeout) ∧
  (f ≠ Field.circuitOpenTimeout → d.circuitOpenTimeout = c.circuitOpenTimeout) ∧
  (f ≠ Field.httpClient → d.httpClient = c.httpClient) ∧
  (f ≠ Field.tracer → d.tracer = c.tracer)

/-! ## More example values -/

/-- A tracer whose `Inject` succeeds and writes the `User-Agent` entry of the carrier. -/
def userAgentTracer : Tracer :=
  { Inject := fun _ h => (Header.Set h "User-Agent" "tracer/0", none) }

/-- A request that already carries a `User-Agent` value. -/
def curlRequest : Request :=
  { Method := "GET"
    URL := "http://inventory/items"
    Header := Header.Set Header.empty "User-Agent" "curl/8"
    ctx := plainContext }

/-- A Client with no user agent configured (the Go zero value). -/
def anonymousClient : Client :=
  { status500Client with userAgent := "" }

/-- A Client with the user agent and transport of `status500Client` and another name and
a configured tracer. -/
def renamedClient : Client :=
  { status500Client with name := "billing/ledger", tracer := some failingTracer }

/-! ## Frame conditions on options -/

/-- An option that never changes the call timeout `httpTimeout`. -/
def KeepsHttpTimeout (o : OptionFn) : Prop :=
  ∀ c : Configuration, (o c).1.httpTimeout = c.httpTimeout

/-- An option that never changes the breaker trip timeout `circuitTimeout`. -/
def KeepsCircuitTimeout (o : OptionFn) : Prop :=
  ∀ c : Configuration, (o c).1.circuitTimeout = c.circuitTimeout

/-- An option that never changes the breaker open duration `circuitOpenTimeout`. -/
def KeepsCircuitOpenTimeout (o : OptionFn) : Prop :=
  ∀ c : Configuration, (o c).1.circuitOpenTimeout = c.circuitOpenTimeout

/-- An option that is none of `HttpTimeout`, `CircuitTimeout`, `CircuitOpenTimeout`:
it is built by one of the nine other constructors of options.go, or it is a function
written by the caller that writes none of the three timeout fields. -/
inductive NonTimeoutOption : OptionFn → Prop where
  | serviceName (s : String) : NonTimeoutOption (ServiceName s)
  | upstreamServiceName (s : String) : NonTimeoutOption (UpstreamServiceName s)
  | operationName (s : String) : NonTimeoutOption (OperationName s)
  | userAgent (s : String) : NonTimeoutOption (UserAgent s)
  | idleConnTimeout (d : Duration) : NonTimeoutOption (IdleConnTimeout d)
  | tlsHandshakeTimeout (d : Duration) : NonTimeoutOption (TlsHandshakeTimeout d)
  | responseHeaderTimeout (d : Duration) : NonTimeoutOption (ResponseHeaderTimeout d)
  | httpClient (h : Option HTTPClient) : NonTimeoutOption (HTTPClientOption h)
  | tracer (t : Option Tracer) : NonTimeoutOption (TracerOption t)
  | other (o : OptionFn) (h1 : KeepsHttpTimeout o) (h2 : KeepsCircuitTimeout o)
      (h3 : KeepsCircuitOpenTimeout o) : NonTimeoutOption o

/-- The configuration used in the examples: the defaults with the identity of the
spec's end-to-end example. -/
def ordersInventory : Configuration :=
  { defaults with
    serviceName := "orders"
    upstreamServiceName := "inventory"
    operationName := "orders/inventory" }

/-! ## Facts about the embedding -/

/-- The derived operation name is never empty: it contains the separator. -/
theorem sprintfSlash_ne_empty (a b : String) : sprintfSlash a b ≠ "" := by
  intro h
  have hd := congrArg String.data h
  simp [sprintfSlash, String.data_append] at hd

/-- The two outcomes of `NewConfiguration`, by the identity fields after the options ran:
failure when a service name is missing, otherwise success with the operation name kept or derived. -/
theorem NewConfiguration_cases (opts : List OptionFn) :
    ((applyOptions opts defaults).serviceName = "" ∨
        (applyOptions opts defaults).upstreamServiceName = "") ∧
      NewConfiguration opts = (none, some ErrCommandNameNotSpecified) ∨
    ¬ ((applyOptions opts defaults).serviceName = "" ∨
        (applyOptions opts defaults).upstreamServiceName = "") ∧
      NewConfiguration opts =
        (some { applyOptions opts defaults with
                operationName :=
                  if (applyOptions opts defaults).operationName = "" then
                    sprintfSlash (applyOptions opts defaults).serviceName
                      (applyOptions opts defaults).upstreamServiceName
                  else (applyOptions opts defaults).operationName }, none) := by
  by_cases hid : (applyOptions opts defaults).serviceName = "" ∨
      (applyOptions opts defaults).upstreamServiceName = ""
  · left
    refine ⟨hid, ?_⟩
    unfold NewConfiguration
    by_cases hop : (applyOptions opts defaults).operationName = ""
    · simp only [hop, hid, if_true]
    · simp only [hop, hid, if_true, if_false]
  · right
    refine ⟨hid, ?_⟩
    unfold NewConfiguration
    by_cases hop : (applyOptions opts defaults).operationName = ""
    · simp only [hop, hid, if_true, if_false]
    · simp only [hop, hid, if_false]

/-- A successful `NewConfiguration` returns the configuration the options produced, with
only the operation name possibly replaced by the derived one. -/
theorem NewConfiguration_some (opts : List OptionFn) (cfg : Configuration)
    (h : NewConfiguration opts = (some cfg, none)) :
    cfg = { applyOptions opts defaults with
            operationName :=
              if (applyOptions opts defaults).operationName = "" then
                sprintfSlash (applyOptions opts defaults).serviceName
                  (applyOptions opts defaults).upstreamServiceName
              else (applyOptions opts defaults).operationName } := by
  rcases NewConfiguration_cases opts with ⟨_, hfail⟩ | ⟨_, hok⟩
  · rw [hfail] at h
    simp at h
  · rw [hok] at h
    exact (Option.some.inj (Prod.mk.inj h).1).symm

/-- Running a list of options split at one option. -/
theorem applyOptions_split (pre post : List OptionFn) (x : OptionFn) (c : Configuration) :
    applyOptions (pre ++ x :: post) c = applyOptions post (x (applyOptions pre c)).1 := by
  simp [applyOptions, List.foldl_append]

/-- Options that keep the call timeout keep it when run in sequence. -/
theorem applyOptions_httpTimeout (opts : List OptionFn)
    (h : ∀ o ∈ opts, KeepsHttpTimeout o) (c : Configuration) :
    (applyOptions opts c).httpTimeout = c.httpTimeout := by
  induction opts generalizing c with
  | nil => rfl
  | cons o rest ih =>
    have hrest : ∀ o2 ∈ rest, KeepsHttpTimeout o2 :=
      fun o2 ho2 => h o2 (List.mem_cons_of_mem _ ho2)
    have ho := h o (List.mem_cons_self _ _) c
    calc (applyOptions (o :: rest) c).httpTimeout
        = (applyOptions rest (o c).1).httpTimeout := rfl
      _ = (o c).1.httpTimeout := ih hrest _
      _ = c.httpTimeout := ho

/-- Options that keep the breaker trip timeout keep it when run in sequence. -/
theorem applyOptions_circuitTimeout (opts : List OptionFn)
    (h : ∀ o ∈ opts, KeepsCircuitTimeout o) (c : Configuration) :
    (applyOptions opts c).circuitTimeout = c.circuitTimeout := by
  induction opts generalizing c with
  | nil => rfl
  | cons o rest ih =>
    have hrest : ∀ o2 ∈ rest, KeepsCircuitTimeout o2 :=
      fun o2 ho2 => h o2 (List.mem_cons_of_mem _ ho2)
    have ho := h o (List.mem_cons_self _ _) c
    calc (applyOptions (o :: rest) c).circuitTimeout
        = (applyOptions rest (o c).1).circuitTimeout := rfl
      _ = (o c).1.circuitTimeout := ih hrest _
      _ = c.circuitTimeout := ho

/-- Options that keep the breaker open duration keep it when run in sequence. -/
theorem applyOptions_circuitOpenTimeout (opts : List OptionFn)
    (h : ∀ o ∈ opts, KeepsCircuitOpenTimeout o) (c : Configuration) :
    (applyOptions opts c).circuitOpenTimeout = c.circuitOpenTimeout := by
  induction opts generalizing c with
  | nil => rfl
  | cons o rest ih =>
    have hrest : ∀ o2 ∈ rest, KeepsCircuitOpenTimeout o2 :=
      fun o2 ho2 => h o2 (List.mem_cons_of_mem _ ho2)
    have ho := h o (List.mem_cons_self _ _) c
    calc (applyOptions (o :: rest) c).circuitOpenTimeout
        = (applyOptions rest (o c).1).circuitOpenTimeout := rfl
      _ = (o c).1.circuitOpenTimeout := ih hrest _
      _ = c.circuitOpenTimeout := ho

/-- An option that is none of the three timeout setters leaves the three timeouts as
they were. -/
theorem NonTimeoutOption.keeps (o : OptionFn) (h : NonTimeoutOption o) :
    KeepsHttpTimeout o ∧ KeepsCircuitTimeout o ∧ KeepsCircuitOpenTimeout o := by
  cases h with
  | other _ h1 h2 h3 => exact ⟨h1, h2, h3⟩
  | _ => exact ⟨fun _ => rfl, fun _ => rfl, fun _ => rfl⟩

/-! ## NewConfiguration: validation of the identity fields -/

/-- Claim C1: whenever the options leave the operation name empty and at least one of
service name and upstream service name empty, `NewConfiguration` returns no
Configuration and the error `ErrCommandNameNotSpecified`. -/
theorem NewConfiguration_fails_without_identity (opts : List OptionFn)
    (hop : (applyOptions opts defaults).operationName = "")
    (hid : (applyOptions opts defaults).serviceName = "" ∨
      (applyOptions opts defaults).upstreamServiceName = "") :
    NewConfiguration opts = (none, some ErrCommandNameNotSpecified) := by
  unfold NewConfiguration
  simp only [hop, hid, if_true]

/-- Witness for C1: a service name alone, with no operation name, is rejected. -/
theorem NewConfiguration_fails_without_identity_witness :
    NewConfiguration [ServiceName "orders"] = (none, some ErrCommandNameNotSpecified) :=
  NewConfiguration_fails_without_identity [ServiceName "orders"] rfl (Or.inr rfl)

/-- Claim C2 (the code departs from it): with only a non-empty operation name set,
`NewConfiguration` still returns no Configuration and `ErrCommandNameNotSpecified`,
because the second check of the service names (options.go, lines 146-148) runs
whether or not the operation name was set. -/
theorem NewConfiguration_rejects_operation_name_alone :
    NewConfiguration [OperationName "checkout"] = (none, some ErrCommandNameNotSpecified) := by
  rfl

/-- Claim C3: when the options leave the operation name empty and set non-empty service
name `s` and upstream service name `u`, `NewConfiguration` succeeds and the returned
operation name is `s ++ "/" ++ u`; when the operation name was set to a non-empty value
and construction succeeds, the returned operation name is that value. -/
theorem NewConfiguration_operation_name (opts : List OptionFn) :
    (∀ s u : String, (applyOptions opts defaults).operationName = "" →
        (applyOptions opts defaults).serviceName = s → s ≠ "" →
        (applyOptions opts defaults).upstreamServiceName = u → u ≠ "" →
        ∃ cfg, NewConfiguration opts = (some cfg, none) ∧
          cfg.operationName = s ++ "/" ++ u) ∧
    (∀ cfg, (applyOptions opts defaults).operationName ≠ "" →
        NewConfiguration opts = (some cfg, none) →
        cfg.operationName = (applyOptions opts defaults).operationName) := by
  constructor
  · intro s u hop hs hs0 hu hu0
    rcases NewConfiguration_cases opts with ⟨hid, _⟩ | ⟨_, hok⟩
    · rcases hid with h | h
      · exact absurd (hs ▸ h) hs0
      · exact absurd (hu ▸ h) hu0
    · refine ⟨_, hok, ?_⟩
      simp only [hop, if_true, sprintfSlash, hs, hu]
  · intro cfg hop hcfg
    rcases NewConfiguration_cases opts with ⟨_, hfail⟩ | ⟨_, hok⟩
    · rw [hfail] at hcfg
      simp at hcfg
    · rw [hok] at hcfg
      have h := (Prod.mk.inj hcfg).1
      have h2 := Option.some.inj h
      rw [← h2]
      simp only [hop, if_false]

/-- Witness for C3: the spec's `orders`/`inventory` example, and an explicit operation name. -/
theorem NewConfiguration_operation_name_witness :
    (∃ cfg, NewConfiguration [ServiceName "orders", UpstreamServiceName "inventory"]
        = (some cfg, none) ∧ cfg.operationName = "orders/inventory") ∧
    (NewConfiguration
        [ServiceName "orders", OperationName "checkout", UpstreamServiceName "inventory"]
        = (some { ordersInventory with operationName := "checkout" }, none) ∧
      ({ ordersInventory with operationName := "checkout" } : Configuration).operationName
        = "checkout") :=
  ⟨(NewConfiguration_operation_name
      [ServiceName "orders", UpstreamServiceName "inventory"]).1
      "orders" "inventory" rfl rfl (by decide) rfl (by decide),
    rfl,
    (NewConfiguration_operation_name
      [ServiceName "orders", OperationName "checkout", UpstreamServiceName "inventory"]).2
      { ordersInventory with operationName := "checkout" } (by decide) rfl⟩

/-- Claim C4: `NewConfiguration` returns either a Configuration with a nil error or no
Configuration with an error, never both and never neither, and a returned Configuration
has a non-empty operation name (and non-empty service names). -/
theorem NewConfiguration_one_of_configuration_and_error (opts : List OptionFn) :
    (∃ cfg, NewConfiguration opts = (some cfg, none) ∧ cfg.operationName ≠ "" ∧
        cfg.serviceName ≠ "" ∧ cfg.upstreamServiceName ≠ "") ∨
    (∃ e, NewConfiguration opts = (none, some e)) := by
  rcases NewConfiguration_cases opts with ⟨_, hfail⟩ | ⟨hid, hok⟩
  · exact Or.inr ⟨_, hfail⟩
  · refine Or.inl ⟨_, hok, ?_, ?_, ?_⟩
    · by_cases hop : (applyOptions opts defaults).operationName = ""
      · simp only [hop, if_true]
        exact sprintfSlash_ne_empty _ _
      · simp only [hop, if_false]
        exact hop
    · exact fun h => hid (Or.inl h)
    · exact fun h => hid (Or.inr h)

/-! ## Build -/

/-- Claim C5 as stated fails: the Configuration that `NewConfiguration` returns for the
`orders`/`inventory` example is turned by `Build` into no Client at all. -/
theorem Build_client_counterexample :
    NewConfiguration [ServiceName "orders", UpstreamServiceName "inventory"]
        = (some ordersInventory, none) ∧
      ¬ ∃ client : Client, ordersInventory.Build = (some client, none) := by
  refine ⟨rfl, ?_⟩
  rintro ⟨client, h⟩
  have h1 := (Prod.mk.inj h).1
  simp [Configuration.Build] at h1

/-- Claim C5, amended: for every Configuration returned successfully by
`NewConfiguration`, `Build` returns a nil Client together with a nil error. -/
theorem Build_returns_nil_client (opts : List OptionFn) (cfg : Configuration)
    (_h : NewConfiguration opts = (some cfg, none)) :
    cfg.Build = (none, none) := by
  rfl

/-- Witness for the amended C5, on the `orders`/`inventory` example. -/
theorem Build_returns_nil_client_witness :
    NewConfiguration [ServiceName "orders", UpstreamServiceName "inventory"]
        = (some ordersInventory, none) ∧
      ordersInventory.Build = (none, none) :=
  ⟨rfl, Build_returns_nil_client
    [ServiceName "orders", UpstreamServiceName "inventory"] ordersInventory rfl⟩

/-! ## NewConfiguration: defaults and explicit timeouts -/

/-- Claim C6: when construction succeeds and no option in the sequence is an
`HttpTimeout`, `CircuitTimeout` or `CircuitOpenTimeout` option, the returned
Configuration has `httpTimeout` 500 ms, `circuitTimeout` 500 ms and
`circuitOpenTimeout` 60 s. -/
theorem NewConfiguration_default_timeouts (opts : List OptionFn) (cfg : Configuration)
    (hno : ∀ o ∈ opts, NonTimeoutOption o)
    (hok : NewConfiguration opts = (some cfg, none)) :
    cfg.httpTimeout = 500 * time.Millisecond ∧
    cfg.circuitTimeout = 500 * time.Millisecond ∧
    cfg.circuitOpenTimeout = 60 * time.Second := by
  rw [NewConfiguration_some opts cfg hok]
  refine ⟨?_, ?_, ?_⟩
  · exact applyOptions_httpTimeout opts (fun o ho => (NonTimeoutOption.keeps o (hno o ho)).1) _
  · exact applyOptions_circuitTimeout opts
      (fun o ho => (NonTimeoutOption.keeps o (hno o ho)).2.1) _
  · exact applyOptions_circuitOpenTimeout opts
      (fun o ho => (NonTimeoutOption.keeps o (hno o ho)).2.2) _

/-- Witness for C6: the `orders`/`inventory` example with a user agent. -/
theorem NewConfiguration_default_timeouts_witness :
    ({ ordersInventory with userAgent := "guppy/1" } : Configuration).httpTimeout
        = 500 * time.Millisecond ∧
    ({ ordersInventory with userAgent := "guppy/1" } : Configuration).circuitTimeout
        = 500 * time.Millisecond ∧
    ({ ordersInventory with userAgent := "guppy/1" } : Configuration).circuitOpenTimeout
        = 60 * time.Second :=
  NewConfiguration_default_timeouts
    [ServiceName "orders", UserAgent "guppy/1", UpstreamServiceName "inventory"]
    { ordersInventory with userAgent := "guppy/1" }
    (by
      intro o ho
      simp only [List.mem_cons, List.mem_singleton, List.not_mem_nil, or_false] at ho
      rcases ho with h | h | h <;> subst h
      · exact NonTimeoutOption.serviceName _
      · exact NonTimeoutOption.userAgent _
      · exact NonTimeoutOption.upstreamServiceName _)
    rfl

/-- Claim C7: for each of the three timeout fields, if the last option of a succeeding
sequence that changes the field is the setter called with `d`, the returned
Configuration holds `d` in that field, for every integer duration `d`. -/
theorem NewConfiguration_explicit_timeouts (pre post : List OptionFn) (d : Duration)
    (cfg : Configuration) :
    ((∀ o ∈ post, KeepsHttpTimeout o) →
        NewConfiguration (pre ++ HttpTimeout d :: post) = (some cfg, none) →
        cfg.httpTimeout = d) ∧
    ((∀ o ∈ post, KeepsCircuitTimeout o) →
        NewConfiguration (pre ++ CircuitTimeout d :: post) = (some cfg, none) →
        cfg.circuitTimeout = d) ∧
    ((∀ o ∈ post, KeepsCircuitOpenTimeout o) →
        NewConfiguration (pre ++ CircuitOpenTimeout d :: post) = (some cfg, none) →
        cfg.circuitOpenTimeout = d) := by
  refine ⟨?_, ?_, ?_⟩
  · intro hpost hok
    rw [NewConfiguration_some _ cfg hok]
    show (applyOptions (pre ++ HttpTimeout d :: post) defaults).httpTimeout = d
    rw [applyOptions_split, applyOptions_httpTimeout post hpost]
    rfl
  · intro hpost hok
    rw [NewConfiguration_some _ cfg hok]
    show (applyOptions (pre ++ CircuitTimeout d :: post) defaults).circuitTimeout = d
    rw [applyOptions_split, applyOptions_circuitTimeout post hpost]
    rfl
  · intro hpost hok
    rw [NewConfiguration_some _ cfg hok]
    show (applyOptions (pre ++ CircuitOpenTimeout d :: post) defaults).circuitOpenTimeout = d
    rw [applyOptions_split, applyOptions_circuitOpenTimeout post hpost]
    rfl

/-- Witness for C7: a zero, a negative and a positive duration, each set last for its
field and followed by an option for another field. -/
theorem NewConfiguration_explicit_timeouts_witness :
    ({ ordersInventory with httpTimeout := 0 } : Configuration).httpTimeout = 0 ∧
    ({ ordersInventory with circuitTimeout := -3 } : Configuration).circuitTimeout = -3 ∧
    ({ ordersInventory with circuitOpenTimeout := 5 } : Configuration).circuitOpenTimeout
      = 5 :=
  ⟨(NewConfiguration_explicit_timeouts [ServiceName "orders", HttpTimeout 7]
      [UpstreamServiceName "inventory"] 0 { ordersInventory with httpTimeout := 0 }).1
      (by
        intro o ho
        rw [List.mem_singleton.mp ho]
        exact fun _ => rfl)
      rfl,
    (NewConfiguration_explicit_timeouts [ServiceName "orders", CircuitTimeout 7]
      [UpstreamServiceName "inventory"] (-3)
      { ordersInventory with circuitTimeout := -3 }).2.1
      (by
        intro o ho
        rw [List.mem_singleton.mp ho]
        exact fun _ => rfl)
      rfl,
    (NewConfiguration_explicit_timeouts [ServiceName "orders", CircuitOpenTimeout 7]
      [UpstreamServiceName "inventory"] 5
      { ordersInventory with circuitOpenTimeout := 5 }).2.2
      (by
        intro o ho
        rw [List.mem_singleton.mp ho]
        exact fun _ => rfl)
      rfl⟩

/-! ## Client.Do -/

/-- Without an active span `Do` is lines 43-45 alone. -/
theorem Do_no_span (global : Tracer) (c : Client) (ctx : Context) (operationName : String)
    (r : Request) (h : opentracing.SpanFromContext ctx = none) :
    c.Do global ctx operationName r = c.send r := by
  unfold Client.Do
  rw [h]

/-- With an active span whose injection succeeds `Do` is lines 43-45 on the injected request. -/
theorem Do_span_ok (global : Tracer) (c : Client) (ctx : Context) (operationName : String)
    (r : Request) (span : Span) (h : opentracing.SpanFromContext ctx = some span)
    (hinj : (global.Inject span.Context r.Header).2 = none) :
    c.Do global ctx operationName r
      = c.send { r with Header := (global.Inject span.Context r.Header).1 } := by
  unfold Client.Do
  rw [h]
  simp only [hinj]

/-- Claim C8: when the call context carries no active span, every header other than
`User-Agent` has after `Do` exactly the values it had before, and the `User-Agent`
header contains the user agent of the Client. -/
theorem Do_without_span_adds_only_user_agent (global : Tracer) (c : Client) (ctx : Context)
    (operationName : String) (r : Request)
    (h : opentracing.SpanFromContext ctx = none) :
    (∀ k : String, k ≠ "User-Agent" →
        (c.Do global ctx operationName r).request.Header k = r.Header k) ∧
    c.userAgent ∈ (c.Do global ctx operationName r).request.Header "User-Agent" := by
  rw [Do_no_span global c ctx operationName r h]
  constructor
  · intro k hk
    simp [Client.send, Header.Add, hk]
  · simp [Client.send, Header.Add]

/-- Witness for C8: with a tracer that would write a trace header, a context without a
span leaves `Uber-Trace-Id` empty and `Accept` as it was, and adds the user agent. -/
theorem Do_without_span_adds_only_user_agent_witness :
    (status500Client.Do headerTracer plainContext "list" getRequest).request.Header
        "Uber-Trace-Id" = [] ∧
    (status500Client.Do headerTracer plainContext "list" getRequest).request.Header
        "Accept" = ["application/json"] ∧
    "guppy/1" ∈ (status500Client.Do headerTracer plainContext "list" getRequest).request.Header
        "User-Agent" :=
  ⟨((Do_without_span_adds_only_user_agent headerTracer status500Client plainContext "list"
      getRequest rfl).1 "Uber-Trace-Id" (by decide)).trans rfl,
    ((Do_without_span_adds_only_user_agent headerTracer status500Client plainContext "list"
      getRequest rfl).1 "Accept" (by decide)).trans rfl,
    (Do_without_span_adds_only_user_agent headerTracer status500Client plainContext "list"
      getRequest rfl).2⟩

/-- Claim C9: when the call context carries an active span and the global tracer's
`Inject` returns an error, `Do` returns no response and a non-nil error that wraps the
injection error, hands nothing to the transport, and leaves the header map as the
injection left it, so no `User-Agent` value is added. -/
theorem Do_injection_failure (global : Tracer) (c : Client) (ctx : Context)
    (operationName : String) (r : Request) (span : Span) (e : GoError)
    (hspan : opentracing.SpanFromContext ctx = some span)
    (hinj : (global.Inject span.Context r.Header).2 = some e) :
    (c.Do global ctx operationName r).resp = none ∧
    (c.Do global ctx operationName r).err
      = some (GoError.Wrap e "unable to inject opentracing headers") ∧
    (∀ w, (c.Do global ctx operationName r).err = some w →
      errors.Cause w = errors.Cause e) ∧
    (c.Do global ctx operationName r).calls = [] ∧
    (c.Do global ctx operationName r).request.Header
      = (global.Inject span.Context r.Header).1 ∧
    (c.Do global ctx operationName r).request.Header "User-Agent"
      = (global.Inject span.Context r.Header).1 "User-Agent" := by
  have hdo : c.Do global ctx operationName r =
      { resp := none
        err := errors.Wrap (some e) "unable to inject opentracing headers"
        request := { r with Header := (global.Inject span.Context r.Header).1 }
        calls := [] } := by
    unfold Client.Do
    rw [hspan]
    simp only [hinj]
  rw [hdo]
  refine ⟨rfl, rfl, ?_, rfl, rfl, rfl⟩
  intro w hw
  have hw2 : GoError.Wrap e "unable to inject opentracing headers" = w :=
    Option.some.inj hw
  rw [← hw2]
  rfl

/-- Witness for C9: a failing tracer, a context with a span, and a Client with a user
agent; the call returns the wrapped error, reaches no transport and adds no
`User-Agent` value. -/
theorem Do_injection_failure_witness :
    (status500Client.Do failingTracer spanContext "list" getRequest).resp = none ∧
    (status500Client.Do failingTracer spanContext "list" getRequest).err
      = some (GoError.Wrap (GoError.New "carrier encoding failed")
          "unable to inject opentracing headers") ∧
    (status500Client.Do failingTracer spanContext "list" getRequest).calls = [] ∧
    (status500Client.Do failingTracer spanContext "list" getRequest).request.Header
      "User-Agent" = [] :=
  have h := Do_injection_failure failingTracer status500Client spanContext "list" getRequest
    { Context := { traceID := 1, spanID := 2, baggage := [] } }
    (GoError.New "carrier encoding failed") rfl rfl
  ⟨h.1, h.2.1, h.2.2.2.1, h.2.2.2.2.2.trans rfl⟩

/-- Claim C10: when trace injection does not fail, `Do` hands the decorated request (the
request with the injected headers and the user agent added) to the transport exactly
once, and returns the response and the error of the transport as they are, whatever the
status code of the response. -/
theorem Do_returns_transport_result (global : Tracer) (c : Client) (ctx : Context)
    (operationName : String) (r : Request)
    (hinj : ∀ span, opentracing.SpanFromContext ctx = some span →
      (global.Inject span.Context r.Header).2 = none) :
    (c.Do global ctx operationName r).calls = [c.decorated global ctx r] ∧
    (c.Do global ctx operationName r).resp = (c.client.Do (c.decorated global ctx r)).1 ∧
    (c.Do global ctx operationName r).err = (c.client.Do (c.decorated global ctx r)).2 := by
  cases hspan : opentracing.SpanFromContext ctx with
  | none =>
    rw [Do_no_span global c ctx operationName r hspan]
    simp only [Client.decorated, injectedHeader, hspan]
    exact ⟨rfl, rfl, rfl⟩
  | some span =>
    rw [Do_span_ok global c ctx operationName r span hspan (hinj span hspan)]
    simp only [Client.decorated, injectedHeader, hspan]
    exact ⟨rfl, rfl, rfl⟩

/-- Witness for C10: a transport that answers HTTP 500 with a nil error is called once,
with the trace header and the user agent on the request, and its 500 response and nil
error are what `Do` returns. -/
theorem Do_returns_transport_result_witness :
    (status500Client.Do headerTracer spanContext "list" getRequest).calls.length = 1 ∧
    (status500Client.Do headerTracer spanContext "list" getRequest).calls.map
        (fun q => (q.Header "Uber-Trace-Id", q.Header "User-Agent"))
      = [(["1:2:0:1"], ["guppy/1"])] ∧
    (status500Client.Do headerTracer spanContext "list" getRequest).resp
      = some { StatusCode := 500, Body := "internal error" } ∧
    (status500Client.Do headerTracer spanContext "list" getRequest).err = none :=
  have h := Do_returns_transport_result headerTracer status500Client spanContext "list"
    getRequest (fun _ _ => rfl)
  ⟨(congrArg List.length h.1).trans rfl,
    (congrArg (List.map (fun q : Request =>
      (q.Header "Uber-Trace-Id", q.Header "User-Agent"))) h.1).trans rfl,
    h.2.1.trans rfl, h.2.2.trans rfl⟩

/-! ## Client.Do: no breaker, no deadline -/

/-- A caller's run of calls ends with the result of the last call on its own. -/
theorem DoAll_append_last (c : Client) (global : Tracer)
    (history : List (Context × String × Request)) (ctx : Context) (operationName : String)
    (r : Request) :
    c.DoAll global (history ++ [(ctx, operationName, r)])
      = c.DoAll global history ++ [c.Do global ctx operationName r] := by
  induction history with
  | nil => rfl
  | cons x rest ih =>
    obtain ⟨ctx2, op2, r2⟩ := x
    show c.Do global ctx2 op2 r2 :: c.DoAll global (rest ++ [(ctx, operationName, r)]) = _
    rw [ih]
    rfl

/-- Claim C11 as stated fails: after three consecutive calls that each reached the
transport and came back with its error, the fourth call reaches the transport again and
returns the transport's error; nothing is short-circuited. -/
theorem Do_short_circuit_counterexample :
    (∀ res ∈ failingClient.DoAll headerTracer
        (List.replicate 3 (plainContext, "list", getRequest)),
      res.calls.length = 1 ∧ res.resp = none ∧
        res.err = some (GoError.New "connection refused")) ∧
    ((failingClient.DoAll headerTracer
        (List.replicate 4 (plainContext, "list", getRequest))).getLast?.map
      (fun res => (res.calls.length, res.resp, res.err)))
      = some (1, none, some (GoError.New "connection refused")) := by
  constructor
  · intro res hres
    simp only [List.replicate, Client.DoAll, List.mem_cons, List.mem_singleton,
      List.not_mem_nil, or_false, or_self] at hres
    rw [hres]
    exact ⟨rfl, rfl, rfl⟩
  · rfl

/-- Claim C11, amended: for every Client and every number `N`, after `N` consecutive
`Do` calls whose transport outcome is a failure or a timeout (the transport was reached
and came back with an error), the very next `Do` call is the call
`Do` would make on a fresh Client: when its trace injection does not fail it hands the
decorated request to the transport exactly once and returns the transport's response
and error. -/
theorem Do_after_failures_reaches_transport (c : Client) (global : Tracer) (N : Nat)
    (history : List (Context × String × Request)) (ctx : Context) (operationName : String)
    (r : Request)
    (_hN : history.length = N)
    (_hfail : ∀ res ∈ c.DoAll global history, res.calls ≠ [] ∧ res.err ≠ none)
    (hinj : ∀ span, opentracing.SpanFromContext ctx = some span →
      (global.Inject span.Context r.Header).2 = none) :
    (c.DoAll global (history ++ [(ctx, operationName, r)])).getLast?
      = some (c.Do global ctx operationName r) ∧
    (c.Do global ctx operationName r).calls = [c.decorated global ctx r] ∧
    (c.Do global ctx operationName r).resp = (c.client.Do (c.decorated global ctx r)).1 ∧
    (c.Do global ctx operationName r).err = (c.client.Do (c.decorated global ctx r)).2 := by
  refine ⟨?_, ?_⟩
  · rw [DoAll_append_last]
    simp
  · cases hspan : opentracing.SpanFromContext ctx with
    | none =>
      rw [Do_no_span global c ctx operationName r hspan]
      simp only [Client.decorated, injectedHeader, hspan]
      exact ⟨rfl, rfl, rfl⟩
    | some span =>
      rw [Do_span_ok global c ctx operationName r span hspan (hinj span hspan)]
      simp only [Client.decorated, injectedHeader, hspan]
      exact ⟨rfl, rfl, rfl⟩

/-- Witness for the amended C11: three failed calls, then a fourth that reaches the
failing transport once more. -/
theorem Do_after_failures_reaches_transport_witness :
    (failingClient.Do headerTracer plainContext "list" getRequest).calls.length = 1 ∧
    (failingClient.Do headerTracer plainContext "list" getRequest).err
      = some (GoError.New "connection refused") :=
  have h := Do_after_failures_reaches_transport failingClient headerTracer 3
    (List.replicate 3 (plainContext, "list", getRequest)) plainContext "list" getRequest rfl
    (by
      intro res hres
      simp only [List.replicate, Client.DoAll, List.mem_cons, List.mem_singleton,
        List.not_mem_nil, or_false, or_self] at hres
      rw [hres]
      exact ⟨by simp [Client.Do, Client.send, opentracing.SpanFromContext, plainContext],
        by simp [Client.Do, Client.send, opentracing.SpanFromContext, plainContext,
          failingClient]⟩)
    (fun _ hs => by simp [opentracing.SpanFromContext, plainContext] at hs)
  ⟨(congrArg List.length h.2.1).trans rfl, h.2.2.2.trans rfl⟩

/-- Claim C12 as stated fails: with a caller deadline of two seconds and the default call
timeout of 500 ms configured, the request reaches the transport with no deadline at all. -/
theorem Do_deadline_counterexample :
    twoSecondContext.deadline = some (2 * time.Second) ∧
    ordersInventory.httpTimeout = 500 * time.Millisecond ∧
    (status500Client.Do headerTracer twoSecondContext "list" getRequest).calls.map
        (fun q => q.ctx.deadline) = [none] ∧
    (status500Client.Do headerTracer twoSecondContext "list" getRequest).calls.map
        (fun q => q.ctx.deadline) ≠ [some (500 * time.Millisecond)] := by
  refine ⟨rfl, rfl, rfl, ?_⟩
  intro h
  have h2 : ([none] : List (Option Duration)) = [some (500 * time.Millisecond)] := h
  simp at h2

/-- Claim C12, amended: for every `Do` call whose trace injection does not fail, the
request handed to the transport carries the context the request came with, so its
deadline is the request's own, whatever the deadline of the caller's context; the
Client holds no call timeout. -/
theorem Do_keeps_request_deadline (global : Tracer) (c : Client) (ctx : Context)
    (operationName : String) (r : Request)
    (hinj : ∀ span, opentracing.SpanFromContext ctx = some span →
      (global.Inject span.Context r.Header).2 = none) :
    (c.Do global ctx operationName r).calls.map (fun q => q.ctx) = [r.ctx] ∧
    (c.Do global ctx operationName r).calls.map (fun q => q.ctx.deadline)
      = [r.ctx.deadline] := by
  cases hspan : opentracing.SpanFromContext ctx with
  | none =>
    rw [Do_no_span global c ctx operationName r hspan]
    exact ⟨rfl, rfl⟩
  | some span =>
    rw [Do_span_ok global c ctx operationName r span hspan (hinj span hspan)]
    exact ⟨rfl, rfl⟩

/-- Witness for the amended C12: a caller deadline of two seconds and a request without
a deadline; the transport sees no deadline. -/
theorem Do_keeps_request_deadline_witness :
    (status500Client.Do headerTracer twoSecondContext "list" getRequest).calls.map
        (fun q => q.ctx.deadline) = [none] :=
  (Do_keeps_request_deadline headerTracer status500Client twoSecondContext "list" getRequest
    (fun _ hs => by simp [opentracing.SpanFromContext, twoSecondContext] at hs)).2

/-! ## NewConfiguration: what decides success, and option errors -/

/-- An `OperationName` option at the end of the sequence leaves both service names as
the options before it left them. -/
theorem applyOptions_append_OperationName (opts : List OptionFn) (name : String) :
    (applyOptions (opts ++ [OperationName name]) defaults).serviceName
      = (applyOptions opts defaults).serviceName ∧
    (applyOptions (opts ++ [OperationName name]) defaults).upstreamServiceName
      = (applyOptions opts defaults).upstreamServiceName := by
  rw [applyOptions_split]
  exact ⟨rfl, rfl⟩

/-- Success of `NewConfiguration` in terms of the two service names alone. -/
theorem NewConfiguration_success_iff (opts : List OptionFn) :
    (∃ cfg, NewConfiguration opts = (some cfg, none)) ↔
      ((applyOptions opts defaults).serviceName ≠ "" ∧
        (applyOptions opts defaults).upstreamServiceName ≠ "") := by
  constructor
  · rintro ⟨cfg, hcfg⟩
    rcases NewConfiguration_cases opts with ⟨_, hfail⟩ | ⟨hid, _⟩
    · rw [hfail] at hcfg
      simp at hcfg
    · exact ⟨fun h => hid (Or.inl h), fun h => hid (Or.inr h)⟩
  · rintro ⟨hs, hu⟩
    rcases NewConfiguration_cases opts with ⟨hid, _⟩ | ⟨_, hok⟩
    · rcases hid with h | h
      · exact absurd h hs
      · exact absurd h hu
    · exact ⟨_, hok⟩

/-- Claim C13: `NewConfiguration` succeeds exactly when, after all options ran, both
service name and upstream service name are non-empty; setting the operation name, to
any value, changes neither success nor failure, and a returned Configuration differs
from what the options left in the operation name at most. -/
theorem NewConfiguration_succeeds_iff_service_names (opts : List OptionFn) :
    ((∃ cfg, NewConfiguration opts = (some cfg, none)) ↔
      ((applyOptions opts defaults).serviceName ≠ "" ∧
        (applyOptions opts defaults).upstreamServiceName ≠ "")) ∧
    (∀ name : String,
      (∃ cfg, NewConfiguration (opts ++ [OperationName name]) = (some cfg, none)) ↔
        (∃ cfg, NewConfiguration opts = (some cfg, none))) ∧
    (∀ cfg, NewConfiguration opts = (some cfg, none) →
      cfg = { applyOptions opts defaults with operationName := cfg.operationName }) := by
  refine ⟨NewConfiguration_success_iff opts, ?_, ?_⟩
  · intro name
    rw [NewConfiguration_success_iff, NewConfiguration_success_iff,
      (applyOptions_append_OperationName opts name).1,
      (applyOptions_append_OperationName opts name).2]
  · intro cfg hcfg
    have h := NewConfiguration_some opts cfg hcfg
    rw [h]

/-- Witness for C13: both service names set succeeds without an operation name, and an
operation name alone does not succeed. -/
theorem NewConfiguration_succeeds_iff_service_names_witness :
    (∃ cfg, NewConfiguration [ServiceName "orders", UpstreamServiceName "inventory"]
      = (some cfg, none)) ∧
    ¬ (∃ cfg, NewConfiguration [OperationName "checkout"] = (some cfg, none)) :=
  ⟨(NewConfiguration_succeeds_iff_service_names
      [ServiceName "orders", UpstreamServiceName "inventory"]).1.mpr
      ⟨by decide, by decide⟩,
    fun h => ((NewConfiguration_succeeds_iff_service_names
      [OperationName "checkout"]).1.mp h).1 rfl⟩

/-- The loop of `NewConfiguration` is the options' mutations applied in order. -/
theorem applyOptions_eq_applyMutations (opts : List OptionFn) (c : Configuration) :
    applyOptions opts c = applyMutations (opts.map mutation) c := by
  induction opts generalizing c with
  | nil => rfl
  | cons o rest ih =>
    show applyOptions rest (o c).1 = applyMutations (rest.map mutation) (mutation o c)
    exact ih _

/-- The tail of `NewConfiguration` is `validate` on what the options left. -/
theorem NewConfiguration_eq_validate (opts : List OptionFn) :
    NewConfiguration opts = validate (applyOptions opts defaults) := by
  rcases NewConfiguration_cases opts with ⟨hid, hfail⟩ | ⟨hid, hok⟩
  · rw [hfail]
    unfold validate
    simp only [hid, if_true]
  · rw [hok]
    unfold validate
    by_cases hop : (applyOptions opts defaults).operationName = ""
    · simp only [hid, hop, if_true, if_false]
    · simp only [hid, hop, if_false]

/-- Claim C14: `NewConfiguration` discards the error of every option: its result is the
validation of the configuration obtained by applying every option's mutation in order
to the defaults, and it is the same result when every option is replaced by the option
with the same mutation and a nil error. -/
theorem NewConfiguration_discards_option_errors (opts : List OptionFn) :
    NewConfiguration opts = validate (applyMutations (opts.map mutation) defaults) ∧
    NewConfiguration opts = NewConfiguration (opts.map silenced) := by
  have h1 : ∀ l : List OptionFn,
      NewConfiguration l = validate (applyMutations (l.map mutation) defaults) := by
    intro l
    rw [NewConfiguration_eq_validate, applyOptions_eq_applyMutations]
  refine ⟨h1 opts, ?_⟩
  rw [h1 opts, h1 (opts.map silenced)]
  have hmap : (opts.map silenced).map mutation = opts.map mutation := by
    rw [List.map_map]
    rfl
  rw [hmap]

/-- Witness for C14: an option that returns an error in the middle of the sequence takes
effect, and so does the option after it. -/
theorem NewConfiguration_discards_option_errors_witness :
    (failingOption defaults).2 = some (GoError.New "option rejected") ∧
    NewConfiguration [ServiceName "orders", failingOption, UpstreamServiceName "inventory"]
      = (some { ordersInventory with userAgent := "guppy/1" }, none) :=
  ⟨rfl, (NewConfiguration_discards_option_errors
    [ServiceName "orders", failingOption, UpstreamServiceName "inventory"]).1.trans rfl⟩

/-! ## The option constructors -/

/-- Claim C15: each of the twelve option constructors yields an option that, on every
Configuration and for every argument, writes the argument to its own field, leaves every
other field as it was and returns a nil error; applying such an option twice is applying
it once, and two such options for different fields give the same configuration in
either order. -/
theorem option_constructors_write_one_field :
    ((∀ (a : String) (c : Configuration), (ServiceName a c).1.serviceName = a) ∧
      (∀ (a : String) (c : Configuration),
        (UpstreamServiceName a c).1.upstreamServiceName = a) ∧
      (∀ (a : String) (c : Configuration), (OperationName a c).1.operationName = a) ∧
      (∀ (a : String) (c : Configuration), (UserAgent a c).1.userAgent = a) ∧
      (∀ (a : Duration) (c : Configuration), (IdleConnTimeout a c).1.idleConnTimeout = a) ∧
      (∀ (a : Duration) (c : Configuration),
        (TlsHandshakeTimeout a c).1.tlsHandshakeTimeout = a) ∧
      (∀ (a : Duration) (c : Configuration),
        (ResponseHeaderTimeout a c).1.responseHeaderTimeout = a) ∧
      (∀ (a : Duration) (c : Configuration), (HttpTimeout a c).1.httpTimeout = a) ∧
      (∀ (a : Duration) (c : Configuration), (CircuitTimeout a c).1.circuitTimeout = a) ∧
      (∀ (a : Duration) (c : Configuration),
        (CircuitOpenTimeout a c).1.circuitOpenTimeout = a) ∧
      (∀ (a : Option HTTPClient) (c : Configuration),
        (HTTPClientOption a c).1.httpClient = a) ∧
      (∀ (a : Option Tracer) (c : Configuration), (TracerOption a c).1.tracer = a)) ∧
    (∀ (f : Field) (o : OptionFn), SetterOf f o → ∀ c : Configuration,
      (o c).2 = none ∧ sameExcept f c (o c).1 ∧ o (o c).1 = o c) ∧
    (∀ (f g : Field) (o p : OptionFn), SetterOf f o → SetterOf g p → f ≠ g →
      ∀ c : Configuration, (p (o c).1).1 = (o (p c).1).1) := by
  refine ⟨⟨?_, ?_, ?_, ?_, ?_, ?_, ?_, ?_, ?_, ?_, ?_, ?_⟩, ?_, ?_⟩
  all_goals try (intro a c; rfl)
  · intro f o ho c
    cases ho <;>
      exact ⟨rfl,
        ⟨fun h => by first | rfl | exact absurd rfl h,
          fun h => by first | rfl | exact absurd rfl h,
          fun h => by first | rfl | exact absurd rfl h,
          fun h => by first | rfl | exact absurd rfl h,
          fun h => by first | rfl | exact absurd rfl h,
          fun h => by first | rfl | exact absurd rfl h,
          fun h => by first | rfl | exact absurd rfl h,
          fun h => by first | rfl | exact absurd rfl h,
          fun h => by first | rfl | exact absurd rfl h,
          fun h => by first | rfl | exact absurd rfl h,
          fun h => by first | rfl | exact absurd rfl h,
          fun h => by first | rfl | exact absurd rfl h⟩,
        rfl⟩
  · intro f g o p ho hp hne c
    cases ho <;> cases hp <;> first | rfl | exact absurd rfl hne

/-- Witness for C15: `HttpTimeout` returns a nil error, keeps the service name, is
idempotent, and commutes with `ServiceName`. -/
theorem option_constructors_write_one_field_witness :
    (HttpTimeout 7 ordersInventory).2 = none ∧
    (HttpTimeout 7 ordersInventory).1.serviceName = "orders" ∧
    HttpTimeout 7 (HttpTimeout 7 ordersInventory).1 = HttpTimeout 7 ordersInventory ∧
    (ServiceName "billing" (HttpTimeout 7 ordersInventory).1).1
      = (HttpTimeout 7 (ServiceName "billing" ordersInventory).1).1 :=
  ⟨(option_constructors_write_one_field.2.1 Field.httpTimeout (HttpTimeout 7)
      (SetterOf.httpTimeout 7) ordersInventory).1,
    (option_constructors_write_one_field.2.1 Field.httpTimeout (HttpTimeout 7)
      (SetterOf.httpTimeout 7) ordersInventory).2.1.1 (by decide),
    (option_constructors_write_one_field.2.1 Field.httpTimeout (HttpTimeout 7)
      (SetterOf.httpTimeout 7) ordersInventory).2.2,
    option_constructors_write_one_field.2.2 Field.httpTimeout Field.serviceName
      (HttpTimeout 7) (ServiceName "billing") (SetterOf.httpTimeout 7)
      (SetterOf.serviceName "billing") (by decide) ordersInventory⟩

/-! ## Client.Do: the user agent, and what the outcome depends on -/

/-- Claim C16 as stated fails: a request holds `User-Agent: curl/8`, the context carries a
span and the injection succeeds, yet the values after `Do` are not `curl/8` followed by
the user agent of the Client, because the tracer wrote the entry before line 43 ran. -/
theorem Do_user_agent_counterexample :
    curlRequest.Header "User-Agent" = ["curl/8"] ∧
    (userAgentTracer.Inject { traceID := 1, spanID := 2, baggage := [] }
      curlRequest.Header).2 = none ∧
    (status500Client.Do userAgentTracer spanContext "list" curlRequest).request.Header
      "User-Agent" = ["tracer/0", "guppy/1"] ∧
    (status500Client.Do userAgentTracer spanContext "list" curlRequest).request.Header
      "User-Agent" ≠ ["curl/8"] ++ ["guppy/1"] := by
  refine ⟨rfl, rfl, rfl, ?_⟩
  intro h
  have h2 : (["tracer/0", "guppy/1"] : List String) = ["curl/8"] ++ ["guppy/1"] := h
  revert h2
  decide

/-- Claim C16, amended: `Do` appends the user agent and does so for every user agent,
the empty string included: whenever trace injection does not fail, the `User-Agent`
values after `Do` are the values the entry holds after injection followed by the user
agent of the Client; they are the values `vs` the request came with followed by the user
agent whenever injection left that entry as it was, as it does when the context carries
no span. -/
theorem Do_appends_user_agent (global : Tracer) (c : Client) (ctx : Context)
    (operationName : String) (r : Request) (vs : List String)
    (hvs : r.Header "User-Agent" = vs)
    (hinj : ∀ span, opentracing.SpanFromContext ctx = some span →
      (global.Inject span.Context r.Header).2 = none) :
    (c.Do global ctx operationName r).request.Header "User-Agent"
      = injectedHeader global ctx r "User-Agent" ++ [c.userAgent] ∧
    (injectedHeader global ctx r "User-Agent" = vs →
      (c.Do global ctx operationName r).request.Header "User-Agent"
        = vs ++ [c.userAgent]) ∧
    (opentracing.SpanFromContext ctx = none →
      (c.Do global ctx operationName r).request.Header "User-Agent"
        = vs ++ [c.userAgent]) := by
  have hmain : (c.Do global ctx operationName r).request.Header "User-Agent"
      = injectedHeader global ctx r "User-Agent" ++ [c.userAgent] := by
    cases hspan : opentracing.SpanFromContext ctx with
    | none =>
      rw [Do_no_span global c ctx operationName r hspan]
      simp [Client.send, Header.Add, injectedHeader, hspan]
    | some span =>
      rw [Do_span_ok global c ctx operationName r span hspan (hinj span hspan)]
      simp [Client.send, Header.Add, injectedHeader, hspan]
  refine ⟨hmain, ?_, ?_⟩
  · intro h
    rw [hmain, h]
  · intro hspan
    rw [hmain]
    simp only [injectedHeader, hspan, hvs]

/-- Witness for the amended C16: a request that holds `curl/8` keeps it first, and a
Client without a user agent adds an empty value after it. -/
theorem Do_appends_user_agent_witness :
    (status500Client.Do headerTracer spanContext "list" curlRequest).request.Header
      "User-Agent" = ["curl/8", "guppy/1"] ∧
    (anonymousClient.Do headerTracer plainContext "list" curlRequest).request.Header
      "User-Agent" = ["curl/8", ""] :=
  ⟨((Do_appends_user_agent headerTracer status500Client spanContext "list" curlRequest
      ["curl/8"] rfl (fun _ _ => rfl)).2.1 rfl).trans rfl,
    ((Do_appends_user_agent headerTracer anonymousClient plainContext "list" curlRequest
      ["curl/8"] rfl (fun _ _ => rfl)).2.2 rfl).trans rfl⟩

/-- Claim C17: the outcome of `Do` depends neither on its `operationName` argument nor on
the `name` and `tracer` fields of the Client: two calls that agree on the call context,
the request, the user agent and the transport of the Client, and the global tracer,
leave the same request headers, hand the same requests to the transport and return the
same response and error. -/
theorem Do_independent_of_name_and_tracer (global : Tracer) (c1 c2 : Client) (ctx : Context)
    (op1 op2 : String) (r : Request)
    (hua : c1.userAgent = c2.userAgent) (hcl : c1.client = c2.client) :
    c1.Do global ctx op1 r = c2.Do global ctx op2 r := by
  obtain ⟨n1, ua1, cl1, t1⟩ := c1
  obtain ⟨n2, ua2, cl2, t2⟩ := c2
  simp only at hua hcl
  subst hua
  subst hcl
  rfl

/-- Witness for C17: another operation name, another Client name and a configured tracer
that would fail change nothing; the injection went through the global tracer. -/
theorem Do_independent_of_name_and_tracer_witness :
    status500Client.Do headerTracer spanContext "list" getRequest
      = renamedClient.Do headerTracer spanContext "refund" getRequest ∧
    (renamedClient.Do headerTracer spanContext "refund" getRequest).request.Header
      "Uber-Trace-Id" = ["1:2:0:1"] :=
  ⟨Do_independent_of_name_and_tracer headerTracer status500Client renamedClient spanContext
      "list" "refund" getRequest rfl rfl,
    rfl⟩

end Guppy
